import Mathlib

/-!
Shallow embedding of `scripts/core.py` (UI/UX Pro Max core: BM25 search,
exact-match booster, result merger, domain classifier, search orchestrators),
together with theorems settling the frozen claims about it.

Conventions of the embedding:
* Python strings are embedded as `List Char` (`Str`); all string operations
  (lowercasing, splitting, substring search) are written out over character
  lists so that they compute.
* Python floats are embedded as real numbers; `math.log` is `Real.log`.
  Real-valued definitions are `noncomputable`, but every integer-valued
  component (tokenization, document frequencies, matching, configuration
  lookup) computes and is decidable.
* Python's `sorted(..., key=lambda x: x[1], reverse=True)` / `list.sort` is a
  stable descending sort by score.  A stable sort with respect to a total
  preorder has a unique result, so it is embedded as Mathlib's
  `List.insertionSort` with the relation "score of the left argument is at
  least the score of the right argument", which is stable in the same sense.
* Python dicts keyed by strings are embedded as association lists (preserving
  the literal insertion order, which Python guarantees and which the classifier
  relies on), and the `defaultdict(int)` of document frequencies as a function
  `Str → ℕ` that is zero outside its keys.  In every reachable state the key
  set of `self.idf` is exactly the set of words with positive document
  frequency, so the membership test `token in self.idf` is embedded as
  `1 ≤ docFreqs token`.
-/

/-- Python strings, embedded as lists of characters. -/
abbrev Str := List Char

/-- Turn a Lean string literal into the embedded string type. -/
def strL (s : String) : Str := s.data

/-- A CSV row as produced by `csv.DictReader`: an ordered association of
column names to string values. -/
abbrev Row := List (Str × Str)

/-- `row.get(col, "")`. -/
def row_get (row : Row) (col : Str) : Str := (List.lookup col row).getD []

/-- `col in row` for a row dictionary. -/
def row_has (row : Row) (col : Str) : Bool := (List.lookup col row).isSome

/-- `str.lower()` (ASCII, as exercised by this program's data). -/
def lower_str (s : Str) : Str := s.map Char.toLower

/-- A character matched by the regex class `[^\w\s]`'s complement: word
characters (alphanumeric or underscore). -/
def is_word_char (c : Char) : Bool := c.isAlphanum || c = '_'

/-- `str.split()` with no separator: split on runs of whitespace, dropping
empty pieces. -/
def split_ws (s : Str) : List Str :=
  let p := s.foldr
    (fun c acc =>
      if c.isWhitespace then
        if acc.1.isEmpty then (([] : Str), acc.2) else (([] : Str), acc.1 :: acc.2)
      else (c :: acc.1, acc.2))
    (([] : Str), ([] : List Str))
  if p.1.isEmpty then p.2 else p.1 :: p.2

/-- `BM25.tokenize` (`core.py` lines 126-130): lowercase, replace every
character that is not a word character or whitespace by a space, split on
whitespace, and keep only words of length greater than 2. -/
def tokenize (text : Str) : List Str :=
  let lowered := lower_str text
  let cleaned := lowered.map (fun c => if is_word_char c || c.isWhitespace then c else ' ')
  (split_ws cleaned).filter (fun w => 2 < w.length)

/-- Does `pat` occur at the start of `hay`? -/
def str_starts : Str → Str → Bool
  | _, [] => true
  | [], _ :: _ => false
  | c :: cs, p :: ps => decide (c = p) && str_starts cs ps

/-- Does `pat` occur as a contiguous substring of `hay`? -/
def str_contains_sub : Str → Str → Bool
  | [], pat => pat.isEmpty
  | c :: t, pat => str_starts (c :: t) pat || str_contains_sub t pat

/-- `re.compile(re.escape(query), re.IGNORECASE)` followed by `pattern.search`:
a case-insensitive literal substring test. -/
def str_contains_ci (hay pat : Str) : Bool :=
  str_contains_sub (lower_str hay) (lower_str pat)

/-- The state of a `BM25` object (`core.py` lines 113-124).  `docFreqs` is the
`defaultdict(int)` of document frequencies; `idf` is the idf dictionary read
through total functions (zero outside the keys, with key membership tracked by
`1 ≤ docFreqs`). -/
structure BM25 where
  k1 : ℝ
  b : ℝ
  corpus : List (List Str)
  doc_lengths : List ℕ
  avgdl : ℝ
  docFreqs : Str → ℕ
  idf : Str → ℝ
  N : ℕ

/-- `BM25()` with the default parameters `k1=1.5`, `b=0.75`. -/
noncomputable def BM25.init : BM25 :=
  ⟨1.5, 0.75, [], [], 0, fun _ => 0, fun _ => 0, 0⟩

/-- The net effect on the document-frequency table of the inner loop of
`BM25.fit` for one document: every word occurring in the document (counted
once per document thanks to the `seen` set) has its frequency bumped by 1. -/
def addDocFreqs (f : Str → ℕ) (doc : List Str) : Str → ℕ :=
  fun w => if w ∈ doc then f w + 1 else f w

/-- `BM25.fit` (`core.py` lines 132-149).  When the corpus is empty the method
returns early, leaving lengths, avgdl, frequencies and idf untouched. -/
noncomputable def BM25.fit (st : BM25) (documents : List Str) : BM25 :=
  let corpus := documents.map tokenize
  let N := corpus.length
  if N = 0 then
    ⟨st.k1, st.b, corpus, st.doc_lengths, st.avgdl, st.docFreqs, st.idf, N⟩
  else
    let doc_lengths := corpus.map List.length
    let avgdl : ℝ := ((doc_lengths.sum : ℕ) : ℝ) / ((N : ℕ) : ℝ)
    let docFreqs := corpus.foldl addDocFreqs st.docFreqs
    let idf : Str → ℝ := fun w =>
      if 1 ≤ docFreqs w then
        Real.log ((((N : ℕ) : ℝ) - ((docFreqs w : ℕ) : ℝ) + 0.5) / (((docFreqs w : ℕ) : ℝ) + 0.5) + 1)
      else st.idf w
    ⟨st.k1, st.b, corpus, doc_lengths, avgdl, docFreqs, idf, N⟩

/-- One BM25 summand (`core.py` lines 163-169):
`idf * (tf*(k1+1)) / (tf + k1*(1 - b + b*doc_len/avgdl))`. -/
noncomputable def bm25Term (k1 b idf tf dl avgdl : ℝ) : ℝ :=
  idf * (tf * (k1 + 1)) / (tf + k1 * (1 - b + b * dl / avgdl))

/-- The score the loop body of `BM25.score` accumulates for one document:
the sum over the query tokens of the BM25 summand, where tokens absent from
the idf dictionary contribute nothing. -/
noncomputable def BM25.scoreOne (st : BM25) (query_tokens : List Str) (idx : ℕ)
    (doc : List Str) : ℝ :=
  (query_tokens.map (fun token =>
    if 1 ≤ st.docFreqs token then
      bm25Term st.k1 st.b (st.idf token) ((doc.count token : ℕ) : ℝ)
        ((st.doc_lengths.getD idx 0 : ℕ) : ℝ) st.avgdl
    else 0)).sum

/-- The unsorted `scores` list of `BM25.score`: one `(index, score)` pair per
document of the corpus, in ascending index order (`enumerate(self.corpus)`). -/
noncomputable def BM25.rawScores (st : BM25) (query : Str) : List (ℕ × ℝ) :=
  (List.range st.corpus.length).map
    (fun idx => (idx, st.scoreOne (tokenize query) idx (st.corpus.getD idx [])))

/-- The comparison used by `sorted(scores, key=lambda x: x[1], reverse=True)`:
the left element's score is at least the right element's score. -/
def scoreGE (x y : ℕ × ℝ) : Prop := y.2 ≤ x.2

noncomputable instance : DecidableRel scoreGE := fun x y => Real.decidableLE y.2 x.2

instance : IsTotal (ℕ × ℝ) scoreGE := ⟨fun x y => le_total y.2 x.2⟩

instance : IsTrans (ℕ × ℝ) scoreGE := ⟨fun _ _ _ h1 h2 => le_trans h2 h1⟩

/-- Python's stable descending sort by score (`sorted(..., reverse=True)` and
`list.sort(...)`; Timsort is stable, and a stable sort with respect to a total
preorder is unique, so insertion sort embeds it faithfully). -/
noncomputable def sortDesc (l : List (ℕ × ℝ)) : List (ℕ × ℝ) :=
  l.insertionSort scoreGE

/-- `BM25.score` (`core.py` lines 151-173): score every document and sort the
pairs by score, descending. -/
noncomputable def BM25.score (st : BM25) (query : Str) : List (ℕ × ℝ) :=
  sortDesc (st.rawScores query)

/-- The inner test of `regex_search` for one row: some configured search
column is present in the row and its value contains the query as a
case-insensitive literal substring (lines 188-191; the `break` makes one hit
per row). -/
def row_regex_match (row : Row) (query : Str) (search_cols : List Str) : Bool :=
  search_cols.any (fun col => row_has row col && str_contains_ci (row_get row col) query)

/-- The indices of the rows matched by `regex_search`, in ascending order. -/
def regex_hits (data : List Row) (query : Str) (search_cols : List Str) : List ℕ :=
  ((data.enum).filter (fun p => row_regex_match p.2 query search_cols)).map Prod.fst

/-- `regex_search` (`core.py` lines 183-192): each matched row contributes the
pair `(index, 100)`. -/
noncomputable def regex_search (data : List Row) (query : Str) (search_cols : List Str) :
    List (ℕ × ℝ) :=
  (regex_hits data query search_cols).map (fun i => (i, (100 : ℝ)))

/-- The literal `domain_keywords` table of `detect_domain` (`core.py` lines
199-208), in its Python insertion order. -/
def domain_keywords : List (Str × List Str) :=
  [ (strL "color", [strL "color", strL "palette", strL "hex", strL "#", strL "rgb",
      strL "financial", strL "sales", strL "marketing", strL "healthcare", strL "it",
      strL "devops", strL "hr"]),
    (strL "chart", [strL "chart", strL "graph", strL "visualization", strL "trend",
      strL "bar", strL "pie", strL "scatter", strL "heatmap", strL "funnel",
      strL "gauge", strL "line"]),
    (strL "landing", [strL "landing", strL "page", strL "cta", strL "conversion",
      strL "hero", strL "testimonial", strL "form", strL "pricing", strL "section"]),
    (strL "product", [strL "saas", strL "ecommerce", strL "e-commerce", strL "fintech",
      strL "healthcare", strL "gaming", strL "portfolio", strL "agency", strL "crypto",
      strL "social", strL "productivity"]),
    (strL "prompt", [strL "prompt", strL "css", strL "implementation", strL "variable",
      strL "checklist", strL "code", strL "tailwind", strL "styled"]),
    (strL "quick", [strL "quick", strL "summary", strL "overview", strL "all styles",
      strL "list", strL "compare"]),
    (strL "style", [strL "style", strL "design", strL "ui", strL "minimalism",
      strL "glassmorphism", strL "neumorphism", strL "brutalism", strL "dark mode",
      strL "flat", strL "3d", strL "aurora", strL "retro"]),
    (strL "ux", [strL "ux", strL "user experience", strL "usability",
      strL "accessibility", strL "wcag", strL "touch", strL "scroll", strL "animation",
      strL "focus", strL "keyboard", strL "screen reader", strL "loading", strL "error",
      strL "validation", strL "feedback", strL "navigation", strL "mobile",
      strL "responsive", strL "performance", strL "z-index", strL "overflow"]) ]

/-- The `scores` dictionary of `detect_domain`: for each domain (in insertion
order) the number of its keywords occurring in the lowercased query as raw
substrings. -/
def domain_scores (query : Str) : List (Str × ℕ) :=
  let query_lower := lower_str query
  domain_keywords.map (fun p => (p.1, p.2.countP (fun k => str_contains_sub query_lower k)))

/-- `max(scores, key=scores.get)`: the first key attaining the maximal value,
in dictionary insertion order. -/
def max_by_score_first (l : List (Str × ℕ)) : Str × ℕ :=
  match l with
  | [] => ([], 0)
  | x :: xs => xs.foldl (fun best p => if best.2 < p.2 then p else best) x

/-- `detect_domain` (`core.py` lines 195-217). -/
def detect_domain (query : Str) : Str :=
  let best := max_by_score_first (domain_scores query)
  if 0 < best.2 then best.1 else strL "style"

/-- Per-table configuration: backing file and the two column lists. -/
structure CsvConfig where
  file : Str
  search_cols : List Str
  output_cols : List Str

/-- The `"style"` entry of `CSV_CONFIG`, also used as the fallback
`CSV_CONFIG["style"]` in `search`. -/
def styleConfig : CsvConfig :=
  ⟨strL "styles.csv",
   [strL "Style Category", strL "Keywords", strL "Best For", strL "Type"],
   [strL "Style Category", strL "Type", strL "Keywords", strL "Primary Colors",
    strL "Effects & Animation", strL "Best For", strL "Performance",
    strL "Accessibility", strL "Framework Compatibility", strL "Complexity"]⟩

/-- `CSV_CONFIG` (`core.py` lines 17-63), as an ordered association list. -/
def CSV_CONFIG : List (Str × CsvConfig) :=
  [ (strL "style", styleConfig),
    (strL "prompt",
     ⟨strL "prompts.csv",
      [strL "Style Category", strL "AI Prompt Keywords (Copy-Paste Ready)",
       strL "CSS/Technical Keywords"],
      [strL "Style Category", strL "AI Prompt Keywords (Copy-Paste Ready)",
       strL "CSS/Technical Keywords", strL "Implementation Checklist"]⟩),
    (strL "color",
     ⟨strL "colors.csv",
      [strL "Product Type", strL "Keywords", strL "Notes"],
      [strL "Product Type", strL "Keywords", strL "Primary (Hex)",
       strL "Secondary (Hex)", strL "CTA (Hex)", strL "Background (Hex)",
       strL "Text (Hex)", strL "Border (Hex)", strL "Notes"]⟩),
    (strL "chart",
     ⟨strL "charts.csv",
      [strL "Data Type", strL "Keywords", strL "Best Chart Type",
       strL "Accessibility Notes"],
      [strL "Data Type", strL "Keywords", strL "Best Chart Type",
       strL "Secondary Options", strL "Color Guidance", strL "Accessibility Notes",
       strL "Library Recommendation", strL "Interactive Level"]⟩),
    (strL "landing",
     ⟨strL "landing.csv",
      [strL "Pattern Name", strL "Keywords", strL "Conversion Optimization",
       strL "Section Order"],
      [strL "Pattern Name", strL "Keywords", strL "Section Order",
       strL "Primary CTA Placement", strL "Color Strategy",
       strL "Conversion Optimization"]⟩),
    (strL "product",
     ⟨strL "products.csv",
      [strL "Product Type", strL "Keywords", strL "Primary Style Recommendation",
       strL "Key Considerations"],
      [strL "Product Type", strL "Keywords", strL "Primary Style Recommendation",
       strL "Secondary Styles", strL "Landing Page Pattern",
       strL "Dashboard Style (if applicable)", strL "Color Palette Focus"]⟩),
    (strL "quick",
     ⟨strL "quick-ref.csv",
      [strL "Style Name", strL "Best For", strL "Category"],
      [strL "Style Name", strL "Type", strL "Best For", strL "Primary Colors",
       strL "Performance", strL "Accessibility", strL "Mobile", strL "Dark Mode"]⟩),
    (strL "ux",
     ⟨strL "ux-guidelines.csv",
      [strL "Category", strL "Issue", strL "Description", strL "Platform"],
      [strL "Category", strL "Issue", strL "Platform", strL "Description", strL "Do",
       strL "Don't", strL "Code Example Good", strL "Code Example Bad",
       strL "Severity"]⟩),
    (strL "typography",
     ⟨strL "typography.csv",
      [strL "Font Pairing Name", strL "Category", strL "Mood/Style Keywords",
       strL "Best For", strL "Heading Font", strL "Body Font"],
      [strL "Font Pairing Name", strL "Category", strL "Heading Font",
       strL "Body Font", strL "Mood/Style Keywords", strL "Best For",
       strL "Google Fonts URL", strL "CSS Import", strL "Tailwind Config",
       strL "Notes"]⟩) ]

/-- The shared search/output column lists of every stack configuration. -/
def stackSearchCols : List Str :=
  [strL "Category", strL "Guideline", strL "Description", strL "Do", strL "Don't"]

/-- The shared output column list of every stack configuration. -/
def stackOutputCols : List Str :=
  [strL "Category", strL "Guideline", strL "Description", strL "Do", strL "Don't",
   strL "Code Good", strL "Code Bad", strL "Severity", strL "Docs URL"]

/-- `STACK_CONFIG` (`core.py` lines 66-107). -/
def STACK_CONFIG : List (Str × CsvConfig) :=
  [ (strL "html-tailwind", ⟨strL "stacks/html-tailwind.csv", stackSearchCols, stackOutputCols⟩),
    (strL "react", ⟨strL "stacks/react.csv", stackSearchCols, stackOutputCols⟩),
    (strL "nextjs", ⟨strL "stacks/nextjs.csv", stackSearchCols, stackOutputCols⟩),
    (strL "vue", ⟨strL "stacks/vue.csv", stackSearchCols, stackOutputCols⟩),
    (strL "svelte", ⟨strL "stacks/svelte.csv", stackSearchCols, stackOutputCols⟩),
    (strL "swiftui", ⟨strL "stacks/swiftui.csv", stackSearchCols, stackOutputCols⟩),
    (strL "react-native", ⟨strL "stacks/react-native.csv", stackSearchCols, stackOutputCols⟩),
    (strL "flutter", ⟨strL "stacks/flutter.csv", stackSearchCols, stackOutputCols⟩) ]

/-- `AVAILABLE_STACKS = list(STACK_CONFIG.keys())`. -/
def AVAILABLE_STACKS : List Str := STACK_CONFIG.map Prod.fst

/-- Document construction of `search_domain`/`search_stack` (lines 234-237,
305-308): for each row, join the values at the search columns with spaces. -/
def build_documents (data : List Row) (search_cols : List Str) : List Str :=
  data.map (fun row => List.intercalate (strL " ") (search_cols.map (fun c => row_get row c)))

/-- First merge loop (lines 246-250): each regex result not yet seen is
admitted with `score + 50` and marked seen. -/
noncomputable def phase1 : List (ℕ × ℝ) → List ℕ → List (ℕ × ℝ) × List ℕ
  | [], seen => ([], seen)
  | p :: rest, seen =>
    if p.1 ∈ seen then phase1 rest seen
    else
      let r := phase1 rest (p.1 :: seen)
      ((p.1, p.2 + 50) :: r.1, r.2)

/-- Second merge loop (lines 252-255): each BM25 result not yet seen whose
score is strictly positive is admitted and marked seen. -/
noncomputable def phase2 : List (ℕ × ℝ) → List ℕ → List (ℕ × ℝ)
  | [], _ => []
  | p :: rest, seen =>
    if p.1 ∉ seen ∧ 0 < p.2 then p :: phase2 rest (p.1 :: seen)
    else phase2 rest seen

/-- The merged (still unsorted) list built by lines 245-255. -/
noncomputable def merge_results (regex_results bm25_results : List (ℕ × ℝ)) :
    List (ℕ × ℝ) :=
  let p := phase1 regex_results []
  p.1 ++ phase2 bm25_results p.2

/-- The fresh BM25 index a search call builds over its own corpus (lines
239-240 and 310-311: `bm25 = BM25()` then `bm25.fit(documents)`). -/
noncomputable def pipeline_bm25 (data : List Row) (search_cols : List Str) : BM25 :=
  BM25.fit BM25.init (build_documents data search_cols)

/-- The per-document BM25 score a search call computes for row `idx`. -/
noncomputable def bm25_score_of (data : List Row) (search_cols : List Str)
    (query : Str) (idx : ℕ) : ℝ :=
  (pipeline_bm25 data search_cols).scoreOne (tokenize query) idx
    ((pipeline_bm25 data search_cols).corpus.getD idx [])

/-- `merged` after `merged.sort(key=lambda x: x[1], reverse=True)` (lines
241-257). -/
noncomputable def merged_list (data : List Row) (search_cols : List Str) (query : Str) :
    List (ℕ × ℝ) :=
  sortDesc (merge_results (regex_search data query search_cols)
    ((pipeline_bm25 data search_cols).score query))

/-- `top_indices = [idx for idx, _ in merged[:max_results]]` (line 258). -/
noncomputable def top_indices (data : List Row) (search_cols : List Str) (query : Str)
    (max_results : ℕ) : List ℕ :=
  ((merged_list data search_cols query).take max_results).map Prod.fst

/-- Output projection of one row (line 263): keep, in output-column order, the
columns present in the row. -/
def project_row (row : Row) (output_cols : List Str) : Row :=
  (output_cols.filter (fun c => row_has row c)).map (fun c => (c, row_get row c))

/-- The data-level search pipeline shared verbatim by `search_domain` (lines
234-266) and `search_stack` (lines 305-335): build documents, fit a fresh
BM25 index, score, regex-match, merge, sort, truncate, project. -/
noncomputable def search_rows (data : List Row) (search_cols output_cols : List Str)
    (query : Str) (max_results : ℕ) : List Row :=
  (top_indices data search_cols query max_results).map
    (fun idx => project_row (data.getD idx []) output_cols)

/-- `search_domain` (`core.py` lines 220-266).  The filesystem (`Path.exists`
plus `load_csv`) is an external collaborator, embedded as a partial map from
file names to row lists. -/
noncomputable def search_domain (fs : Str → Option (List Row)) (query domain : Str)
    (max_results : ℕ) : List Row :=
  match List.lookup domain CSV_CONFIG with
  | none => []
  | some config =>
    match fs config.file with
    | none => []
    | some data => search_rows data config.search_cols config.output_cols query max_results

/-- The dictionary returned by `search` (lines 269-288): either the
`File not found` error dictionary or the ordinary result dictionary. -/
inductive SearchResult where
  | fileNotFound (file : Str) (domain : Str) : SearchResult
  | ok (domain : Str) (query : Str) (file : Str) (count : ℕ) (results : List Row) : SearchResult
deriving DecidableEq

/-- `search` (`core.py` lines 269-288).  Note line 274: an unknown domain
falls back to `CSV_CONFIG["style"]` for the file check. -/
noncomputable def search (fs : Str → Option (List Row)) (query : Str)
    (domainOpt : Option Str) (max_results : ℕ) : SearchResult :=
  let domain := match domainOpt with
    | none => detect_domain query
    | some d => d
  let config := (List.lookup domain CSV_CONFIG).getD styleConfig
  match fs config.file with
  | none => SearchResult.fileNotFound config.file domain
  | some _ =>
    let results := search_domain fs query domain max_results
    SearchResult.ok domain query config.file results.length results

/-- The dictionary returned by `search_stack` (lines 291-344). -/
inductive StackResult where
  | unknownStack (stack : Str) (available : List Str) : StackResult
  | fileNotFound (file : Str) (stack : Str) : StackResult
  | ok (domain : Str) (stack : Str) (query : Str) (file : Str) (count : ℕ)
      (results : List Row) : StackResult
deriving DecidableEq

/-- `search_stack` (`core.py` lines 291-344); its body repeats the
`search_domain` pipeline verbatim, so it reuses `search_rows`. -/
noncomputable def search_stack (fs : Str → Option (List Row)) (query stack : Str)
    (max_results : ℕ) : StackResult :=
  match List.lookup stack STACK_CONFIG with
  | none => StackResult.unknownStack stack AVAILABLE_STACKS
  | some config =>
    match fs config.file with
    | none => StackResult.fileNotFound config.file stack
    | some data =>
      let results := search_rows data config.search_cols config.output_cols query max_results
      StackResult.ok (strL "stack") stack query config.file results.length results

/-- The score of the document at position `idx` after fitting a fresh index on
`docs`, read off the unsorted score list. -/
noncomputable def doc_score (docs : List Str) (query : Str) (idx : ℕ) : ℝ :=
  (BM25.fit BM25.init docs).scoreOne (tokenize query) idx
    ((BM25.fit BM25.init docs).corpus.getD idx [])

/-- The column header used by the concrete example tables below. -/
def nameCol : Str := strL "Name"

/-- A 40-fold repetition of `"aaa bbb"`: a query whose tokenization repeats
the two terms `aaa` and `bbb` forty times each. -/
def longQuery : Str := List.intercalate (strL " ") (List.replicate 40 (strL "aaa bbb"))

/-- The expected token list of `longQuery`. -/
def longQueryToks : List Str := (List.replicate 40 [strL "aaa", strL "bbb"]).flatten

/-- Example table: row 0 contains `longQuery` verbatim, row 1 contains both of
its terms but not the query as a substring, and 32 filler rows contain
neither. -/
def longTable : List Row :=
  [(nameCol, longQuery)] :: [(nameCol, strL "bbb aaa")] ::
    List.replicate 32 [(nameCol, strL "ccc")]

/-- Example table for the two-row exact-match-precedence instance. -/
def miniTable : List Row :=
  [[(nameCol, strL "aaa bbb")], [(nameCol, strL "bbb aaa")]]

/-- Example table from the specification's end-to-end test: three named
styles. -/
def retroTable : List Row :=
  [[(nameCol, strL "Neon Glow")], [(nameCol, strL "Retro Wave")],
   [(nameCol, strL "Minimalist Clean")]]

/-- Document with 20 occurrences of `qqq` and one of `rrr`. -/
def docX20 : Str := List.intercalate (strL " ") (strL "rrr" :: List.replicate 20 (strL "qqq"))

/-- `docX20` with one more occurrence of the query term `qqq`. -/
def docX21 : Str := List.intercalate (strL " ") (strL "rrr" :: List.replicate 21 (strL "qqq"))

/-- A companion document: one `qqq` and fifteen `sss` fillers. -/
def docYlong : Str := List.intercalate (strL " ") (strL "qqq" :: List.replicate 15 (strL "sss"))

/-- The two-term query used with the documents above. -/
def twoTermQuery : Str := strL "qqq rrr"

/-- A one-row demo filesystem: only `styles.csv` exists. -/
def demoFs : Str → Option (List Row) :=
  fun f => if f = strL "styles.csv" then some [[(nameCol, strL "x")]] else none

/-! ### Helper lemmas about the embedded operations -/

/-- Every token produced by `tokenize` has length greater than 2. -/
theorem tokenize_length_gt_two (s : Str) (w : Str) (hw : w ∈ tokenize s) :
    2 < w.length := by
  have := List.of_mem_filter hw
  simpa using this

/-- Net effect of the document-frequency accumulation of `fit`: starting from
`f`, every word gains one count per document of the corpus containing it. -/
theorem foldl_addDocFreqs (corpus : List (List Str)) :
    ∀ (f : Str → ℕ) (w : Str),
      (corpus.foldl addDocFreqs f) w = f w + corpus.countP (fun d => decide (w ∈ d)) := by
  induction corpus with
  | nil => intro f w; simp
  | cons d rest ih =>
    intro f w
    rw [List.foldl_cons, ih, List.countP_cons]
    by_cases h : w ∈ d
    · simp [addDocFreqs, h, Nat.add_assoc, Nat.add_comm]
    · simp [addDocFreqs, h]

/-- `fit` always stores the tokenized corpus. -/
theorem fit_corpus (st : BM25) (docs : List Str) :
    (BM25.fit st docs).corpus = docs.map tokenize := by
  simp only [BM25.fit]
  split <;> rfl

/-- `fit` always stores the document count of the current corpus. -/
theorem fit_N (st : BM25) (docs : List Str) :
    (BM25.fit st docs).N = (docs.map tokenize).length := by
  simp only [BM25.fit]
  split <;> rfl

/-- `fit` keeps the BM25 parameters. -/
theorem fit_k1_b (st : BM25) (docs : List Str) :
    (BM25.fit st docs).k1 = st.k1 ∧ (BM25.fit st docs).b = st.b := by
  simp only [BM25.fit]
  split <;> exact ⟨rfl, rfl⟩

/-- Fitted from a fresh index, the document-frequency table counts exactly the
documents of the current corpus containing the word. -/
theorem fit_init_docFreqs (docs : List Str) (w : Str) :
    (BM25.fit BM25.init docs).docFreqs w
      = (docs.map tokenize).countP (fun d => decide (w ∈ d)) := by
  simp only [BM25.fit]
  split
  · next h =>
    have : docs.map tokenize = [] := List.length_eq_zero.mp h
    simp [BM25.init, this]
  · simpa [BM25.init] using foldl_addDocFreqs (docs.map tokenize) (fun _ => 0) w

/-- Fitted from a fresh index, every word with positive document frequency has
the idf value computed from the current corpus statistics alone. -/
theorem fit_init_idf (docs : List Str) (w : Str)
    (h : 1 ≤ (BM25.fit BM25.init docs).docFreqs w) :
    (BM25.fit BM25.init docs).idf w
      = Real.log (((((docs.map tokenize).length : ℕ) : ℝ)
          - (((BM25.fit BM25.init docs).docFreqs w : ℕ) : ℝ) + 0.5)
        / ((((BM25.fit BM25.init docs).docFreqs w : ℕ) : ℝ) + 0.5) + 1) := by
  by_cases hN : (docs.map tokenize).length = 0
  · exfalso
    rw [fit_init_docFreqs] at h
    have : docs.map tokenize = [] := List.length_eq_zero.mp hN
    simp [this] at h
  · have hfreq := fit_init_docFreqs docs w
    simp only [BM25.fit, if_neg hN] at h ⊢
    rw [if_pos h]

/-- The unsorted score list enumerates the corpus positions in order. -/
theorem rawScores_map_fst (st : BM25) (query : Str) :
    (st.rawScores query).map Prod.fst = List.range st.corpus.length := by
  simp [BM25.rawScores, List.map_map, Function.comp_def]

/-- The sorted score list is a permutation of the unsorted one. -/
theorem score_perm (st : BM25) (query : Str) :
    List.Perm (st.score query) (st.rawScores query) :=
  List.perm_insertionSort scoreGE (st.rawScores query)

/-- The positions in the score list are pairwise distinct. -/
theorem score_fst_nodup (st : BM25) (query : Str) :
    ((st.score query).map Prod.fst).Nodup := by
  have h := (score_perm st query).map Prod.fst
  rw [h.nodup_iff, rawScores_map_fst]
  exact List.nodup_range _

/-- Membership in the unsorted score list. -/
theorem mem_rawScores (st : BM25) (query : Str) (i : ℕ) (hi : i < st.corpus.length) :
    (i, st.scoreOne (tokenize query) i (st.corpus.getD i [])) ∈ st.rawScores query := by
  exact List.mem_map_of_mem _ (List.mem_range.mpr hi)

/-- Conversely, every element of the unsorted score list is the score pair of
its own position. -/
theorem rawScores_mem_elim (st : BM25) (query : Str) (p : ℕ × ℝ)
    (hp : p ∈ st.rawScores query) :
    p.1 < st.corpus.length
      ∧ p = (p.1, st.scoreOne (tokenize query) p.1 (st.corpus.getD p.1 [])) := by
  rcases List.mem_map.mp hp with ⟨i, hi, rfl⟩
  exact ⟨List.mem_range.mp hi, rfl⟩

/-- The sorted score lists are sorted: scores never increase along them. -/
theorem sortDesc_sorted (l : List (ℕ × ℝ)) :
    (sortDesc l).Pairwise scoreGE :=
  List.sorted_insertionSort scoreGE l

/-- The sort permutes its input. -/
theorem sortDesc_perm (l : List (ℕ × ℝ)) : List.Perm (sortDesc l) l :=
  List.perm_insertionSort scoreGE l

/-- Stability of the ordered insertion: inserting an element that precedes (in
original position) every tied element of a stably sorted list keeps the list
stably sorted.  "Stably sorted" means scores are non-increasing and tied
scores appear in ascending original position. -/
theorem orderedInsert_pairwise_stable (x : ℕ × ℝ) (t : List (ℕ × ℝ))
    (ht : t.Pairwise (fun a b => b.2 ≤ a.2 ∧ (a.2 = b.2 → a.1 < b.1)))
    (hx : ∀ y ∈ t, x.2 = y.2 → x.1 < y.1) :
    (t.orderedInsert scoreGE x).Pairwise
      (fun a b => b.2 ≤ a.2 ∧ (a.2 = b.2 → a.1 < b.1)) := by
  induction t with
  | nil => simp
  | cons y ys ih =>
    rw [List.orderedInsert]
    by_cases hxy : scoreGE x y
    · rw [if_pos hxy]
      have hxy' : y.2 ≤ x.2 := hxy
      rcases List.pairwise_cons.mp ht with ⟨hy, hys⟩
      refine List.pairwise_cons.mpr ⟨?_, ht⟩
      intro z hz
      rcases List.mem_cons.mp hz with rfl | hz
      · exact ⟨hxy', hx z (List.mem_cons_self _ _)⟩
      · rcases hy z hz with ⟨hzy, _⟩
        exact ⟨le_trans hzy hxy', hx z (List.mem_cons_of_mem _ hz)⟩
    · rw [if_neg hxy]
      have hxy' : ¬ (y.2 ≤ x.2) := hxy
      have hlt : x.2 < y.2 := lt_of_not_le hxy'
      rcases List.pairwise_cons.mp ht with ⟨hy, hys⟩
      refine List.pairwise_cons.mpr ⟨?_, ?_⟩
      · intro z hz
        rcases (List.mem_orderedInsert scoreGE).mp hz with rfl | hz
        · exact ⟨le_of_lt hlt, fun h => absurd h (ne_of_gt hlt)⟩
        · exact hy z hz
      · exact ih hys (fun z hz => hx z (List.mem_cons_of_mem _ hz))

/-- Stability of the whole sort: if original positions are strictly
increasing along ties (in particular when the input is listed in ascending
position order), the sorted output has non-increasing scores with ties in
ascending position order. -/
theorem sortDesc_pairwise_stable (l : List (ℕ × ℝ))
    (hl : l.Pairwise (fun a b => a.2 = b.2 → a.1 < b.1)) :
    (sortDesc l).Pairwise (fun a b => b.2 ≤ a.2 ∧ (a.2 = b.2 → a.1 < b.1)) := by
  induction l with
  | nil => simp [sortDesc]
  | cons x xs ih =>
    rcases List.pairwise_cons.mp hl with ⟨hxh, hxs⟩
    have : sortDesc (x :: xs) = (sortDesc xs).orderedInsert scoreGE x := rfl
    rw [this]
    refine orderedInsert_pairwise_stable x (sortDesc xs) (ih hxs) ?_
    intro y hy
    exact hxh y ((sortDesc_perm xs).mem_iff.mp hy)

/-- Membership in the `seen` set after the first merge loop. -/
theorem phase1_seen_mem (l : List (ℕ × ℝ)) :
    ∀ (seen : List ℕ) (i : ℕ),
      i ∈ (phase1 l seen).2 ↔ i ∈ seen ∨ i ∈ l.map Prod.fst := by
  induction l with
  | nil => intro seen i; simp [phase1]
  | cons p rest ih =>
    intro seen i
    rw [phase1]
    by_cases hp : p.1 ∈ seen
    · rw [if_pos hp, ih]
      simp only [List.map_cons, List.mem_cons]
      constructor
      · rintro (h | h)
        · exact Or.inl h
        · exact Or.inr (Or.inr h)
      · rintro (h | rfl | h)
        · exact Or.inl h
        · exact Or.inl hp
        · exact Or.inr h
    · rw [if_neg hp]
      rw [ih]
      simp only [List.mem_cons, List.map_cons]
      tauto

/-- When no input index is already seen and the input indices are distinct,
the first merge loop admits everything, adding 50 to each score. -/
theorem phase1_eq_boost (l : List (ℕ × ℝ)) :
    ∀ (seen : List ℕ), (∀ p ∈ l, p.1 ∉ seen) → (l.map Prod.fst).Nodup →
      (phase1 l seen).1 = l.map (fun p => (p.1, p.2 + 50)) := by
  induction l with
  | nil => intro seen _ _; simp [phase1]
  | cons p rest ih =>
    intro seen hseen hnd
    rw [phase1, if_neg (hseen p (List.mem_cons_self _ _))]
    simp only [List.map_cons, List.cons.injEq, true_and]
    rcases List.pairwise_cons.mp hnd with ⟨hhead, htail⟩
    refine ih (p.1 :: seen) ?_ htail
    intro q hq
    intro hmem
    rcases List.mem_cons.mp hmem with heq | hmem
    · exact hhead q.1 (List.mem_map_of_mem Prod.fst hq) heq.symm
    · exact hseen q (List.mem_cons_of_mem _ hq) hmem

/-- When the input indices are distinct, the second merge loop is a filter:
it admits exactly the pairs whose index is unseen and whose score is
positive. -/
theorem phase2_eq_filter (l : List (ℕ × ℝ)) :
    ∀ (seen : List ℕ), (l.map Prod.fst).Nodup →
      phase2 l seen = l.filter (fun p => decide (p.1 ∉ seen ∧ 0 < p.2)) := by
  induction l with
  | nil => intro seen _; simp [phase2]
  | cons p rest ih =>
    intro seen hnd
    rcases List.pairwise_cons.mp hnd with ⟨hhead, htail⟩
    rw [phase2, List.filter_cons]
    by_cases hc : p.1 ∉ seen ∧ 0 < p.2
    · rw [if_pos hc]
      have hdec : (decide (p.1 ∉ seen ∧ 0 < p.2)) = true := decide_eq_true hc
      rw [if_pos hdec, ih (p.1 :: seen) htail]
      congr 1
      refine List.filter_congr ?_
      intro q hq
      have hne : q.1 ≠ p.1 :=
        fun h => hhead q.1 (List.mem_map_of_mem Prod.fst hq) h.symm
      simp [List.mem_cons, hne]
    · rw [if_neg hc]
      have hdec : (decide (p.1 ∉ seen ∧ 0 < p.2)) = false :=
        decide_eq_false hc
      rw [if_neg (by simp [hdec]), ih seen htail]

/-- `search_rows` with `max_results = 0` yields no rows. -/
theorem search_rows_zero (data : List Row) (search_cols output_cols : List Str)
    (query : Str) :
    search_rows data search_cols output_cols query 0 = [] := by
  simp [search_rows, top_indices]

/-! ### Claim theorems -/

/-- C6: after fitting on the empty corpus (`fit([])`, so `N = 0`), `score`
returns the empty sequence for every query, and the guarded `avgdl` stays 0
(no division by zero is ever performed: the scoring loop body that divides by
`avgdl` is never reached because the corpus is empty). -/
theorem claim_C6_empty_corpus_safe :
    (∀ query : Str, (BM25.fit BM25.init []).score query = [])
      ∧ (BM25.fit BM25.init []).avgdl = 0
      ∧ (BM25.fit BM25.init []).N = 0 :=
  ⟨fun _ => rfl, rfl, rfl⟩

/-- C7: the tokenizer is a total function that keeps only tokens of length
greater than 2 after lowercasing and punctuation removal; in particular
`tokenize("Glass-Morphism UI!! v2") = ["glass", "morphism"]` and
`tokenize("") = []`. -/
theorem claim_C7_tokenizer :
    (∀ (s w : Str), w ∈ tokenize s → 2 < w.length)
      ∧ tokenize (strL "Glass-Morphism UI!! v2") = [strL "glass", strL "morphism"]
      ∧ tokenize (strL "") = [] :=
  ⟨tokenize_length_gt_two, by decide, by decide⟩

/-- Witness for C7: the universally quantified part applied at the example
input and token. -/
theorem claim_C7_tokenizer_witness :
    2 < (strL "glass").length :=
  claim_C7_tokenizer.1 (strL "Glass-Morphism UI!! v2") (strL "glass") (by decide)

/-- C3 counterexample: under the code's own keyword table, the query
`"dark mode toggle accessibility"` classifies to `"color"` (not `"ux"`):
`"it"` is a substring of `"accessibility"`, so `color`, `style` (via
`"dark mode"`) and `ux` (via `"accessibility"`) tie at one keyword each, and
`max` picks the first domain of the dictionary insertion order, `color`. -/
theorem claim_C3_counterexample :
    detect_domain (strL "dark mode toggle accessibility") = strL "color"
      ∧ strL "color" ≠ strL "ux" := by
  constructor
  · decide
  · decide

/-- C3 amended: the query `"dark mode toggle accessibility"` gives `color`,
`style` and `ux` one keyword hit each and every other domain zero, and the
classifier therefore returns `"color"`, the first domain attaining the
maximal count in the declared order. -/
theorem claim_C3_amended :
    domain_scores (strL "dark mode toggle accessibility")
      = [(strL "color", 1), (strL "chart", 0), (strL "landing", 0), (strL "product", 0),
         (strL "prompt", 0), (strL "quick", 0), (strL "style", 1), (strL "ux", 1)]
      ∧ detect_domain (strL "dark mode toggle accessibility") = strL "color" := by
  constructor
  · decide
  · decide

/-- C1 counterexample: with `styles.csv` present, searching an unknown table
id (`"nope"`) does not fail with any error at all — it returns an ordinary
result dictionary (with the unknown id, count 0 and no rows), because
`search` silently falls back to the `style` configuration for the file check
while `search_domain` returns no rows for the unknown id. -/
theorem claim_C1_counterexample :
    search demoFs (strL "ribbon") (some (strL "nope")) 5
      = SearchResult.ok (strL "nope") (strL "ribbon") (strL "styles.csv") 0 [] := by
  rfl

/-- C1 amended: for a table id with no configuration, `search` substitutes
the style configuration's file for the existence check and returns an
ordinary (non-error) result naming the unknown id, with count 0 and an empty
result list; it never reports a NotFound error for the id. -/
theorem claim_C1_amended (fs : Str → Option (List Row)) (query id : Str) (k : ℕ)
    (data : List Row) (hid : List.lookup id CSV_CONFIG = none)
    (hfs : fs (strL "styles.csv") = some data) :
    search fs query (some id) k
      = SearchResult.ok id query (strL "styles.csv") 0 [] := by
  have hsd : search_domain fs query id k = [] := by
    unfold search_domain
    rw [hid]
  unfold search
  dsimp only
  rw [hid]
  simp only [Option.getD_none]
  rw [show styleConfig.file = strL "styles.csv" from rfl, hfs]
  dsimp only
  rw [hsd]
  rfl

/-- Witness for C1 amended, at the demo filesystem and the unknown id
`"nope"`. -/
theorem claim_C1_amended_witness :
    search demoFs (strL "glow") (some (strL "nope")) 3
      = SearchResult.ok (strL "nope") (strL "glow") (strL "styles.csv") 0 [] :=
  claim_C1_amended demoFs (strL "glow") (strL "nope") 3 [[(nameCol, strL "x")]] rfl rfl

/-- C9: with the resolved domain configured and its file present, calling
`search` with `max_results = 0` returns an ordinary result with count 0 and
no rows, whatever the corpus contains (`max_results` is a natural number, so
the precondition `max_results ≥ 0` is built into the embedding). -/
theorem claim_C9_zero_max_results (fs : Str → Option (List Row)) (query : Str)
    (domainOpt : Option Str) (d : Str) (config : CsvConfig) (data : List Row)
    (hd : (match domainOpt with | none => detect_domain query | some dd => dd) = d)
    (hcfg : List.lookup d CSV_CONFIG = some config)
    (hfs : fs config.file = some data) :
    search fs query domainOpt 0 = SearchResult.ok d query config.file 0 [] := by
  have hsd : search_domain fs query d 0 = [] := by
    unfold search_domain
    rw [hcfg]
    dsimp only
    rw [hfs]
    exact search_rows_zero data config.search_cols config.output_cols query
  unfold search
  dsimp only
  rw [hd, hcfg]
  simp only [Option.getD_some]
  rw [hfs]
  dsimp only
  rw [hsd]
  rfl

/-- Witness for C9 at a concrete one-row corpus. -/
theorem claim_C9_zero_max_results_witness :
    search demoFs (strL "glow") (some (strL "style")) 0
      = SearchResult.ok (strL "style") (strL "glow") (strL "styles.csv") 0 [] :=
  claim_C9_zero_max_results demoFs (strL "glow") (some (strL "style")) (strL "style")
    styleConfig [[(nameCol, strL "x")]] rfl rfl rfl

/-- C8: BM25 statistics are scoped to one search call.  First, the merged
list every search call ranks is computed from an index fitted from the fresh
initial state on that call's own documents (this is how `search_domain` and
`search_stack` are written: `bm25 = BM25(); bm25.fit(documents)`).  Second,
the statistics of an index fitted from the fresh state are functions of the
current corpus alone: the document count is the number of current documents,
the corpus is their tokenization, the document frequency of a word counts
exactly the current documents containing it, and the idf of every indexed
word is computed from these two numbers — so no statistic of an earlier call
or another table can influence a later call's scores. -/
theorem claim_C8_fresh_statistics :
    (∀ (data : List Row) (search_cols : List Str) (query : Str),
        merged_list data search_cols query
          = sortDesc (merge_results (regex_search data query search_cols)
              ((BM25.fit BM25.init (build_documents data search_cols)).score query)))
      ∧ (∀ docs : List Str,
          (BM25.fit BM25.init docs).N = docs.length
          ∧ (BM25.fit BM25.init docs).corpus = docs.map tokenize
          ∧ (∀ w : Str, (BM25.fit BM25.init docs).docFreqs w
              = (docs.map tokenize).countP (fun doc => decide (w ∈ doc)))
          ∧ (∀ w : Str, 1 ≤ (BM25.fit BM25.init docs).docFreqs w →
              (BM25.fit BM25.init docs).idf w
                = Real.log ((((docs.length : ℕ) : ℝ)
                    - (((BM25.fit BM25.init docs).docFreqs w : ℕ) : ℝ) + 0.5)
                  / ((((BM25.fit BM25.init docs).docFreqs w : ℕ) : ℝ) + 0.5) + 1))) := by
  constructor
  · intro data search_cols query
    rfl
  · intro docs
    refine ⟨?_, fit_corpus BM25.init docs, fit_init_docFreqs docs, ?_⟩
    · rw [fit_N, List.length_map]
    · intro w hw
      rw [fit_init_idf docs w hw, List.length_map]

/-- Witness for C8: the idf formula of the fourth conjunct at a one-document
corpus. -/
theorem claim_C8_fresh_statistics_witness :
    1 ≤ (BM25.fit BM25.init [strL "aaa"]).docFreqs (strL "aaa")
    ∧ (BM25.fit BM25.init [strL "aaa"]).idf (strL "aaa")
      = Real.log (((([strL "aaa"].length : ℕ) : ℝ)
          - (((BM25.fit BM25.init [strL "aaa"]).docFreqs (strL "aaa") : ℕ) : ℝ) + 0.5)
        / ((((BM25.fit BM25.init [strL "aaa"]).docFreqs (strL "aaa") : ℕ) : ℝ) + 0.5) + 1) :=
  ⟨by decide, (claim_C8_fresh_statistics.2 [strL "aaa"]).2.2.2 (strL "aaa") (by decide)⟩

/-- A document with zero occurrences of every query token scores 0. -/
theorem scoreOne_zero (st : BM25) (qt : List Str) (idx : ℕ) (doc : List Str)
    (h : ∀ t ∈ qt, doc.count t = 0) :
    st.scoreOne qt idx doc = 0 := by
  unfold BM25.scoreOne
  have hz : ∀ x ∈ qt.map (fun token =>
      if 1 ≤ st.docFreqs token then
        bm25Term st.k1 st.b (st.idf token) ((doc.count token : ℕ) : ℝ)
          ((st.doc_lengths.getD idx 0 : ℕ) : ℝ) st.avgdl
      else 0), x = 0 := by
    intro x hx
    rcases List.mem_map.mp hx with ⟨token, htok, rfl⟩
    rw [h token htok]
    by_cases hdf : 1 ≤ st.docFreqs token
    · rw [if_pos hdf]
      simp [bm25Term]
    · rw [if_neg hdf]
  have := List.sum_eq_card_nsmul _ 0 hz
  simpa using this

/-- C10: for every corpus and query, `score` returns exactly one pair per
document — the positions are a permutation of `0..N-1` — sorted so that
scores never increase and tied scores keep ascending position order (the sort
is stable over the ascending-index scan), and every document with zero
query-term overlap is present with score 0. -/
theorem claim_C10_score_shape (docs : List Str) (query : Str) :
    ((BM25.fit BM25.init docs).score query).length = docs.length
    ∧ List.Perm (((BM25.fit BM25.init docs).score query).map Prod.fst)
        (List.range docs.length)
    ∧ ((BM25.fit BM25.init docs).score query).Pairwise
        (fun x y => y.2 ≤ x.2 ∧ (x.2 = y.2 → x.1 < y.1))
    ∧ (∀ i : ℕ, i < docs.length →
        (∀ t ∈ tokenize query, ((docs.map tokenize).getD i []).count t = 0) →
        (i, (0 : ℝ)) ∈ (BM25.fit BM25.init docs).score query) := by
  have hlen : (BM25.fit BM25.init docs).corpus.length = docs.length := by
    rw [fit_corpus, List.length_map]
  refine ⟨?_, ?_, ?_, ?_⟩
  · rw [(score_perm _ query).length_eq]
    simp [BM25.rawScores, hlen]
  · have h := (score_perm (BM25.fit BM25.init docs) query).map Prod.fst
    rw [rawScores_map_fst, hlen] at h
    exact h
  · show ((sortDesc ((BM25.fit BM25.init docs).rawScores query))).Pairwise _
    apply sortDesc_pairwise_stable
    unfold BM25.rawScores
    refine (List.pairwise_lt_range _).map _ ?_
    intro a b hab
    intro _
    exact hab
  · intro i hi hcount
    have hmem := mem_rawScores (BM25.fit BM25.init docs) query i (by rw [hlen]; exact hi)
    have hzero : (BM25.fit BM25.init docs).scoreOne (tokenize query) i
        ((BM25.fit BM25.init docs).corpus.getD i []) = 0 := by
      apply scoreOne_zero
      rw [fit_corpus]
      exact hcount
    rw [hzero] at hmem
    exact ((score_perm _ query).mem_iff).mpr hmem

/-- Witness for C10: a one-document corpus and an unrelated query; the
document appears with score 0. -/
theorem claim_C10_score_shape_witness :
    (0, (0 : ℝ)) ∈ (BM25.fit BM25.init [strL "neon glow"]).score (strL "xyzzy") :=
  (claim_C10_score_shape [strL "neon glow"] (strL "xyzzy")).2.2.2 0 (by decide) (by decide)

/-- C4: the merger's BM25 loop admits, after the exact matches, exactly the
rows not already seen whose BM25 score is strictly positive (stated for the
score list every search call actually merges, where row indices are pairwise
distinct); and on the spec's end-to-end example — a 3-row table with search
column `Name` = `["Neon Glow", "Retro Wave", "Minimalist Clean"]`, query
`"retro"`, `max_results = 2` — the pipeline returns exactly one row, the
`Retro Wave` row. -/
theorem claim_C4_merger_admission :
    (∀ (data : List Row) (cols : List Str) (query : Str) (seen : List ℕ),
        phase2 ((pipeline_bm25 data cols).score query) seen
          = ((pipeline_bm25 data cols).score query).filter
              (fun p => decide (p.1 ∉ seen ∧ 0 < p.2)))
    ∧ search_rows retroTable [nameCol] [nameCol] (strL "retro") 2
        = [[(nameCol, strL "Retro Wave")]] := by
  constructor
  · intro data cols query seen
    exact phase2_eq_filter _ seen (score_fst_nodup _ _)
  · have hqt : tokenize (strL "retro") = [strL "retro"] := by decide
    have hcorp : (pipeline_bm25 retroTable [nameCol]).corpus
        = [[strL "neon", strL "glow"], [strL "retro", strL "wave"],
           [strL "minimalist", strL "clean"]] := by decide
    have hraw : (pipeline_bm25 retroTable [nameCol]).rawScores (strL "retro")
        = [(0, (pipeline_bm25 retroTable [nameCol]).scoreOne (tokenize (strL "retro")) 0
              ((pipeline_bm25 retroTable [nameCol]).corpus.getD 0 [])),
           (1, (pipeline_bm25 retroTable [nameCol]).scoreOne (tokenize (strL "retro")) 1
              ((pipeline_bm25 retroTable [nameCol]).corpus.getD 1 [])),
           (2, (pipeline_bm25 retroTable [nameCol]).scoreOne (tokenize (strL "retro")) 2
              ((pipeline_bm25 retroTable [nameCol]).corpus.getD 2 []))] := by
      unfold BM25.rawScores
      rw [show (pipeline_bm25 retroTable [nameCol]).corpus.length = 3 from by
        rw [hcorp]
        rfl]
      rfl
    have hs0 : (pipeline_bm25 retroTable [nameCol]).scoreOne (tokenize (strL "retro")) 0
        ((pipeline_bm25 retroTable [nameCol]).corpus.getD 0 []) = 0 := by
      apply scoreOne_zero
      rw [hqt, hcorp]
      decide
    have hs2 : (pipeline_bm25 retroTable [nameCol]).scoreOne (tokenize (strL "retro")) 2
        ((pipeline_bm25 retroTable [nameCol]).corpus.getD 2 []) = 0 := by
      apply scoreOne_zero
      rw [hqt, hcorp]
      decide
    have hfil : ((pipeline_bm25 retroTable [nameCol]).rawScores (strL "retro")).filter
        (fun p => decide (p.1 ∉ ([1] : List ℕ) ∧ 0 < p.2)) = [] := by
      apply List.filter_eq_nil_iff.mpr
      intro p hp
      rw [hraw] at hp
      simp only [List.mem_cons, List.not_mem_nil, or_false] at hp
      rcases hp with rfl | rfl | rfl
      · simp only [decide_eq_true_eq, not_and]
        intro _
        rw [hs0]
        exact lt_irrefl 0
      · simp only [decide_eq_true_eq, not_and]
        intro h1
        exact absurd (List.mem_cons_self 1 []) h1
      · simp only [decide_eq_true_eq, not_and]
        intro _
        rw [hs2]
        exact lt_irrefl 0
    have hphase2 : phase2 ((pipeline_bm25 retroTable [nameCol]).score (strL "retro")) [1]
        = [] := by
      rw [phase2_eq_filter _ [1] (score_fst_nodup _ _)]
      apply List.Perm.eq_nil
      have hperm := (score_perm (pipeline_bm25 retroTable [nameCol]) (strL "retro")).filter
        (fun p => decide (p.1 ∉ ([1] : List ℕ) ∧ 0 < p.2))
      rw [hfil] at hperm
      exact hperm
    have hhits : regex_hits retroTable (strL "retro") [nameCol] = [1] := by decide
    have hregex : regex_search retroTable (strL "retro") [nameCol]
        = [(1, (100 : ℝ))] := by
      unfold regex_search
      rw [hhits]
      rfl
    have hph1 : phase1 [(1, (100 : ℝ))] [] = ([(1, (100 : ℝ) + 50)], [1]) := by
      rw [phase1]
      rw [if_neg (List.not_mem_nil 1)]
      rfl
    have hmerge : merge_results (regex_search retroTable (strL "retro") [nameCol])
        ((pipeline_bm25 retroTable [nameCol]).score (strL "retro"))
        = [(1, (100 : ℝ) + 50)] := by
      unfold merge_results
      dsimp only
      rw [hregex, hph1, hphase2]
      rfl
    have hml : merged_list retroTable [nameCol] (strL "retro")
        = [(1, (100 : ℝ) + 50)] := by
      unfold merged_list
      rw [hmerge]
      rfl
    have htop : top_indices retroTable [nameCol] (strL "retro") 2 = [1] := by
      unfold top_indices
      rw [hml]
      rfl
    unfold search_rows
    rw [htop]
    decide

/-- The stored document lengths of a fit on a non-empty corpus. -/
theorem fit_doc_lengths (st : BM25) (docs : List Str)
    (h : (docs.map tokenize).length ≠ 0) :
    (BM25.fit st docs).doc_lengths = (docs.map tokenize).map List.length := by
  simp only [BM25.fit, if_neg h]

/-- The stored average document length of a fit on a non-empty corpus. -/
theorem fit_avgdl (st : BM25) (docs : List Str)
    (h : (docs.map tokenize).length ≠ 0) :
    (BM25.fit st docs).avgdl
      = (((((docs.map tokenize).map List.length).sum : ℕ) : ℝ)
          / (((docs.map tokenize).length : ℕ) : ℝ)) := by
  simp only [BM25.fit, if_neg h]

/-- Evaluation of the BM25 score of the first document of
`[docX20, docYlong]` for the query `"qqq rrr"`. -/
theorem docScore20_eval :
    doc_score [docX20, docYlong] twoTermQuery 0
      = bm25Term 1.5 0.75 (Real.log (6 / 5)) (((20 : ℕ) : ℝ)) (((21 : ℕ) : ℝ))
          (((37 : ℕ) : ℝ) / ((2 : ℕ) : ℝ))
        + bm25Term 1.5 0.75 (Real.log 2) (((1 : ℕ) : ℝ)) (((21 : ℕ) : ℝ))
          (((37 : ℕ) : ℝ) / ((2 : ℕ) : ℝ)) := by
  have hne : (([docX20, docYlong]).map tokenize).length ≠ 0 := by decide
  have hqt : tokenize twoTermQuery = [strL "qqq", strL "rrr"] := by decide
  have hdoc0 : (BM25.fit BM25.init [docX20, docYlong]).corpus.getD 0 []
      = strL "rrr" :: List.replicate 20 (strL "qqq") := by
    rw [fit_corpus]
    decide
  have hdfq : (BM25.fit BM25.init [docX20, docYlong]).docFreqs (strL "qqq") = 2 := by
    rw [fit_init_docFreqs]
    decide
  have hdfr : (BM25.fit BM25.init [docX20, docYlong]).docFreqs (strL "rrr") = 1 := by
    rw [fit_init_docFreqs]
    decide
  have hidfq : (BM25.fit BM25.init [docX20, docYlong]).idf (strL "qqq")
      = Real.log (6 / 5) := by
    rw [fit_init_idf _ _ (by rw [hdfq]; norm_num), hdfq]
    rw [show (([docX20, docYlong]).map tokenize).length = 2 from by decide]
    norm_num
  have hidfr : (BM25.fit BM25.init [docX20, docYlong]).idf (strL "rrr")
      = Real.log 2 := by
    rw [fit_init_idf _ _ (by rw [hdfr]), hdfr]
    rw [show (([docX20, docYlong]).map tokenize).length = 2 from by decide]
    norm_num
  have hdl : (BM25.fit BM25.init [docX20, docYlong]).doc_lengths.getD 0 0 = 21 := by
    rw [fit_doc_lengths _ _ hne]
    decide
  have havg : (BM25.fit BM25.init [docX20, docYlong]).avgdl
      = ((37 : ℕ) : ℝ) / ((2 : ℕ) : ℝ) := by
    rw [fit_avgdl _ _ hne]
    rw [show ((([docX20, docYlong]).map tokenize).map List.length).sum = 37 from by decide]
    rw [show (([docX20, docYlong]).map tokenize).length = 2 from by decide]
  have hk1 : (BM25.fit BM25.init [docX20, docYlong]).k1 = 1.5 := by
    rw [(fit_k1_b _ _).1]
    rfl
  have hb : (BM25.fit BM25.init [docX20, docYlong]).b = 0.75 := by
    rw [(fit_k1_b _ _).2]
    rfl
  have hcq : (strL "rrr" :: List.replicate 20 (strL "qqq")).count (strL "qqq") = 20 := by
    decide
  have hcr : (strL "rrr" :: List.replicate 20 (strL "qqq")).count (strL "rrr") = 1 := by
    decide
  unfold doc_score
  rw [hqt, hdoc0]
  unfold BM25.scoreOne
  simp only [List.map_cons, List.map_nil, List.sum_cons, List.sum_nil, add_zero]
  rw [if_pos (by rw [hdfq]; norm_num), if_pos (by rw [hdfr])]
  rw [hk1, hb, hidfq, hidfr, hdl, hcq, hcr, havg]

/-- Evaluation of the BM25 score of the first document of
`[docX21, docYlong]` (one more `qqq` occurrence) for the query `"qqq rrr"`. -/
theorem docScore21_eval :
    doc_score [docX21, docYlong] twoTermQuery 0
      = bm25Term 1.5 0.75 (Real.log (6 / 5)) (((21 : ℕ) : ℝ)) (((22 : ℕ) : ℝ))
          (((38 : ℕ) : ℝ) / ((2 : ℕ) : ℝ))
        + bm25Term 1.5 0.75 (Real.log 2) (((1 : ℕ) : ℝ)) (((22 : ℕ) : ℝ))
          (((38 : ℕ) : ℝ) / ((2 : ℕ) : ℝ)) := by
  have hne : (([docX21, docYlong]).map tokenize).length ≠ 0 := by decide
  have hqt : tokenize twoTermQuery = [strL "qqq", strL "rrr"] := by decide
  have hdoc0 : (BM25.fit BM25.init [docX21, docYlong]).corpus.getD 0 []
      = strL "rrr" :: List.replicate 21 (strL "qqq") := by
    rw [fit_corpus]
    decide
  have hdfq : (BM25.fit BM25.init [docX21, docYlong]).docFreqs (strL "qqq") = 2 := by
    rw [fit_init_docFreqs]
    decide
  have hdfr : (BM25.fit BM25.init [docX21, docYlong]).docFreqs (strL "rrr") = 1 := by
    rw [fit_init_docFreqs]
    decide
  have hidfq : (BM25.fit BM25.init [docX21, docYlong]).idf (strL "qqq")
      = Real.log (6 / 5) := by
    rw [fit_init_idf _ _ (by rw [hdfq]; norm_num), hdfq]
    rw [show (([docX21, docYlong]).map tokenize).length = 2 from by decide]
    norm_num
  have hidfr : (BM25.fit BM25.init [docX21, docYlong]).idf (strL "rrr")
      = Real.log 2 := by
    rw [fit_init_idf _ _ (by rw [hdfr]), hdfr]
    rw [show (([docX21, docYlong]).map tokenize).length = 2 from by decide]
    norm_num
  have hdl : (BM25.fit BM25.init [docX21, docYlong]).doc_lengths.getD 0 0 = 22 := by
    rw [fit_doc_lengths _ _ hne]
    decide
  have havg : (BM25.fit BM25.init [docX21, docYlong]).avgdl
      = ((38 : ℕ) : ℝ) / ((2 : ℕ) : ℝ) := by
    rw [fit_avgdl _ _ hne]
    rw [show ((([docX21, docYlong]).map tokenize).map List.length).sum = 38 from by decide]
    rw [show (([docX21, docYlong]).map tokenize).length = 2 from by decide]
  have hk1 : (BM25.fit BM25.init [docX21, docYlong]).k1 = 1.5 := by
    rw [(fit_k1_b _ _).1]
    rfl
  have hb : (BM25.fit BM25.init [docX21, docYlong]).b = 0.75 := by
    rw [(fit_k1_b _ _).2]
    rfl
  have hcq : (strL "rrr" :: List.replicate 21 (strL "qqq")).count (strL "qqq") = 21 := by
    decide
  have hcr : (strL "rrr" :: List.replicate 21 (strL "qqq")).count (strL "rrr") = 1 := by
    decide
  unfold doc_score
  rw [hqt, hdoc0]
  unfold BM25.scoreOne
  simp only [List.map_cons, List.map_nil, List.sum_cons, List.sum_nil, add_zero]
  rw [if_pos (by rw [hdfq]; norm_num), if_pos (by rw [hdfr])]
  rw [hk1, hb, hidfq, hidfr, hdl, hcq, hcr, havg]

/-- C5 counterexample: increasing the occurrences of the query term `qqq`
from 20 to 21 in the first document (holding the other document and all other
term occurrences fixed) strictly decreases that document's BM25 score for the
query `"qqq rrr"`: the extra occurrence grows the document length, which
shrinks the contribution of the other query term `rrr` by more than the
saturated `qqq` term gains. -/
theorem claim_C5_counterexample :
    doc_score [docX21, docYlong] twoTermQuery 0
      < doc_score [docX20, docYlong] twoTermQuery 0 := by
  rw [docScore20_eval, docScore21_eval]
  have e1 : bm25Term 1.5 0.75 (Real.log (6 / 5)) (((20 : ℕ) : ℝ)) (((21 : ℕ) : ℝ))
      (((37 : ℕ) : ℝ) / ((2 : ℕ) : ℝ)) = Real.log (6 / 5) * (14800 / 6409) := by
    unfold bm25Term
    push_cast
    rw [mul_div_assoc]
    norm_num
  have e2 : bm25Term 1.5 0.75 (Real.log 2) (((1 : ℕ) : ℝ)) (((21 : ℕ) : ℝ))
      (((37 : ℕ) : ℝ) / ((2 : ℕ) : ℝ)) = Real.log 2 * (148 / 157) := by
    unfold bm25Term
    push_cast
    rw [mul_div_assoc]
    norm_num
  have e3 : bm25Term 1.5 0.75 (Real.log (6 / 5)) (((21 : ℕ) : ℝ)) (((22 : ℕ) : ℝ))
      (((38 : ℕ) : ℝ) / ((2 : ℕ) : ℝ)) = Real.log (6 / 5) * (2660 / 1149) := by
    unfold bm25Term
    push_cast
    rw [mul_div_assoc]
    norm_num
  have e4 : bm25Term 1.5 0.75 (Real.log 2) (((1 : ℕ) : ℝ)) (((22 : ℕ) : ℝ))
      (((38 : ℕ) : ℝ) / ((2 : ℕ) : ℝ)) = Real.log 2 * (380 / 407) := by
    unfold bm25Term
    push_cast
    rw [mul_div_assoc]
    norm_num
  rw [e1, e2, e3, e4]
  have ha0 : 0 ≤ Real.log (6 / 5) := Real.log_nonneg (by norm_num)
  have ha : Real.log (6 / 5) ≤ 6 / 5 - 1 := Real.log_le_sub_one_of_pos (by norm_num)
  have hb : (0.6931471803 : ℝ) < Real.log 2 := Real.log_two_gt_d9
  nlinarith

/-- C5 amended: the per-term BM25 summand is monotone in the term frequency
when the document length and the average document length (and hence the
length-normalization factor) are held fixed — the counterexample shows the
full score is not monotone because added occurrences also grow the document
length. -/
theorem claim_C5_amended (idf tf tfnew dl avgdl : ℝ)
    (hidf : 0 ≤ idf) (h0 : 0 ≤ tf) (hle : tf ≤ tfnew) (hdl : 0 ≤ dl / avgdl) :
    bm25Term 1.5 0.75 idf tf dl avgdl ≤ bm25Term 1.5 0.75 idf tfnew dl avgdl := by
  unfold bm25Term
  have h075 : (0.75 : ℝ) * dl / avgdl = 0.75 * (dl / avgdl) :=
    mul_div_assoc 0.75 dl avgdl
  have hk : (0 : ℝ) < 1.5 * (1 - 0.75 + 0.75 * dl / avgdl) := by
    rw [h075]
    nlinarith
  rw [div_le_div_iff₀ (by nlinarith) (by nlinarith)]
  nlinarith [mul_nonneg (mul_nonneg hidf (sub_nonneg.mpr hle)) (le_of_lt hk)]

/-- Witness for C5 amended at concrete parameters. -/
theorem claim_C5_amended_witness :
    bm25Term 1.5 0.75 1 0 2 1 ≤ bm25Term 1.5 0.75 1 1 2 1 :=
  claim_C5_amended 1 0 1 2 1 (by norm_num) le_rfl (by norm_num) (by norm_num)

/-- The regex hit list has pairwise distinct indices. -/
theorem regex_hits_nodup (data : List Row) (query : Str) (cols : List Str) :
    (regex_hits data query cols).Nodup := by
  unfold regex_hits
  have hsub : List.Sublist
      (((data.enum).filter (fun p => row_regex_match p.2 query cols)).map Prod.fst)
      ((data.enum).map Prod.fst) :=
    (List.filter_sublist _).map Prod.fst
  rw [List.enum_map_fst] at hsub
  exact (List.nodup_range _).sublist hsub

/-- C2 amended: if row `a` exact-matches the query, row `b` does not, and
`b`'s BM25 score is below the fixed admission score `100 + 50` of exact
matches, then wherever both rows appear in the truncated ranking, `a` is
ranked strictly above `b`.  (The counterexample shows the bound is needed:
a BM25-only score above 150 outranks exact matches.) -/
theorem claim_C2_amended (data : List Row) (cols : List Str) (query : Str) (k : ℕ)
    (a b : ℕ)
    (ha : a ∈ regex_hits data query cols)
    (hb : b ∉ regex_hits data query cols)
    (hbs : bm25_score_of data cols query b < 100 + 50)
    (i j : ℕ)
    (hi : i < (top_indices data cols query k).length)
    (hj : j < (top_indices data cols query k).length)
    (hia : (top_indices data cols query k)[i] = a)
    (hjb : (top_indices data cols query k)[j] = b) :
    i < j := by
  have hhitsnd : (regex_hits data query cols).Nodup := regex_hits_nodup data query cols
  have hRfst : (regex_search data query cols).map Prod.fst = regex_hits data query cols := by
    unfold regex_search
    rw [List.map_map]
    exact List.map_id _
  -- the two merge phases
  have hP1 : (phase1 (regex_search data query cols) []).1
      = (regex_search data query cols).map (fun p => (p.1, p.2 + 50)) := by
    refine phase1_eq_boost _ [] (fun p _ => List.not_mem_nil p.1) ?_
    rw [hRfst]
    exact hhitsnd
  have hseen : ∀ x : ℕ, x ∈ (phase1 (regex_search data query cols) []).2
      ↔ x ∈ regex_hits data query cols := by
    intro x
    rw [phase1_seen_mem, hRfst]
    simp
  have hP2 : phase2 ((pipeline_bm25 data cols).score query)
      (phase1 (regex_search data query cols) []).2
      = ((pipeline_bm25 data cols).score query).filter
          (fun p => decide (p.1 ∉ (phase1 (regex_search data query cols) []).2 ∧ 0 < p.2)) :=
    phase2_eq_filter _ _ (score_fst_nodup _ _)
  -- elements of the first phase: score 100 + 50, index among the hits
  have hP1elts : ∀ p ∈ (phase1 (regex_search data query cols) []).1,
      p.2 = 100 + 50 ∧ p.1 ∈ regex_hits data query cols := by
    intro p hp
    rw [hP1] at hp
    rcases List.mem_map.mp hp with ⟨q, hq, rfl⟩
    unfold regex_search at hq
    rcases List.mem_map.mp hq with ⟨h, hh, rfl⟩
    exact ⟨rfl, hh⟩
  -- elements of the second phase: unseen index, element of the score list
  have hP2elts : ∀ p ∈ phase2 ((pipeline_bm25 data cols).score query)
      (phase1 (regex_search data query cols) []).2,
      p ∈ (pipeline_bm25 data cols).score query
        ∧ p.1 ∉ regex_hits data query cols := by
    intro p hp
    rw [hP2] at hp
    have hmem := List.mem_of_mem_filter hp
    have hpred := List.of_mem_filter hp
    rw [decide_eq_true_eq] at hpred
    exact ⟨hmem, fun hx => hpred.1 ((hseen p.1).mpr hx)⟩
  -- the truncated sorted list
  have hL : top_indices data cols query k
      = ((merged_list data cols query).take k).map Prod.fst := rfl
  have hiL : i < ((merged_list data cols query).take k).length := by
    rw [hL, List.length_map] at hi
    exact hi
  have hjL : j < ((merged_list data cols query).take k).length := by
    rw [hL, List.length_map] at hj
    exact hj
  have hfsta : (((merged_list data cols query).take k)[i]).1 = a := by
    have e1 := List.getElem_of_eq hL hi
    rw [List.getElem_map] at e1
    exact e1.symm.trans hia
  have hfstb : (((merged_list data cols query).take k)[j]).1 = b := by
    have e1 := List.getElem_of_eq hL hj
    rw [List.getElem_map] at e1
    exact e1.symm.trans hjb
  -- locate both entries in the two phases
  have hmemML : ∀ p ∈ (merged_list data cols query).take k,
      p ∈ (phase1 (regex_search data query cols) []).1
        ∨ p ∈ phase2 ((pipeline_bm25 data cols).score query)
            (phase1 (regex_search data query cols) []).2 := by
    intro p hp
    have hp2 : p ∈ merged_list data cols query := List.mem_of_mem_take hp
    have hp3 : p ∈ merge_results (regex_search data query cols)
        ((pipeline_bm25 data cols).score query) :=
      (sortDesc_perm _).mem_iff.mp hp2
    unfold merge_results at hp3
    exact List.mem_append.mp hp3
  have hea := hmemML _ (List.getElem_mem hiL)
  have heb := hmemML _ (List.getElem_mem hjL)
  -- the a-entry has score 100 + 50
  have hsa : (((merged_list data cols query).take k)[i]).2 = 100 + 50 := by
    rcases hea with hin | hin
    · exact (hP1elts _ hin).1
    · exfalso
      have := (hP2elts _ hin).2
      rw [hfsta] at this
      exact this ha
  -- the b-entry carries b's BM25 score
  have hsb : (((merged_list data cols query).take k)[j]).2
      = bm25_score_of data cols query b := by
    rcases heb with hin | hin
    · exfalso
      have := (hP1elts _ hin).2
      rw [hfstb] at this
      exact hb this
    · have hmem := (hP2elts _ hin).1
      have hraw := (score_perm _ _).mem_iff.mp hmem
      have heq := (rawScores_mem_elim _ _ _ hraw).2
      have hsnd := congrArg Prod.snd heq
      rw [hfstb] at hsnd
      unfold bm25_score_of
      exact hsnd
  -- sortedness of the truncated list
  have hsorted : ((merged_list data cols query).take k).Pairwise scoreGE := by
    have hml : (merged_list data cols query).Pairwise scoreGE :=
      sortDesc_sorted (merge_results (regex_search data query cols)
        ((pipeline_bm25 data cols).score query))
    exact hml.sublist (List.take_sublist k _)
  -- conclude
  rcases lt_trichotomy i j with hlt | heq | hgt
  · exact hlt
  · exfalso
    subst heq
    have : a = b := by rw [← hfsta, hfstb]
    rw [this] at ha
    exact hb ha
  · exfalso
    have hge := List.pairwise_iff_getElem.mp hsorted j i hjL hiL hgt
    have : (100 : ℝ) + 50 ≤ bm25_score_of data cols query b := by
      rw [← hsa, ← hsb]
      exact hge
    linarith

/-- The BM25 score of row 1 of `miniTable` for the query `"aaa bbb"` is
`2 * log (6/5)`. -/
theorem mini_score1_eval :
    bm25_score_of miniTable [nameCol] (strL "aaa bbb") 1 = 2 * Real.log (6 / 5) := by
  have hne : ((build_documents miniTable [nameCol]).map tokenize).length ≠ 0 := by decide
  have hqt : tokenize (strL "aaa bbb") = [strL "aaa", strL "bbb"] := by decide
  have hdoc1 : (pipeline_bm25 miniTable [nameCol]).corpus.getD 1 []
      = [strL "bbb", strL "aaa"] := by
    unfold pipeline_bm25
    rw [fit_corpus]
    decide
  have hdfa : (pipeline_bm25 miniTable [nameCol]).docFreqs (strL "aaa") = 2 := by
    unfold pipeline_bm25
    rw [fit_init_docFreqs]
    decide
  have hdfb : (pipeline_bm25 miniTable [nameCol]).docFreqs (strL "bbb") = 2 := by
    unfold pipeline_bm25
    rw [fit_init_docFreqs]
    decide
  have hidfa : (pipeline_bm25 miniTable [nameCol]).idf (strL "aaa")
      = Real.log (6 / 5) := by
    unfold pipeline_bm25 at hdfa ⊢
    rw [fit_init_idf _ _ (by rw [hdfa]; norm_num), hdfa]
    rw [show ((build_documents miniTable [nameCol]).map tokenize).length = 2 from by decide]
    norm_num
  have hidfb : (pipeline_bm25 miniTable [nameCol]).idf (strL "bbb")
      = Real.log (6 / 5) := by
    unfold pipeline_bm25 at hdfb ⊢
    rw [fit_init_idf _ _ (by rw [hdfb]; norm_num), hdfb]
    rw [show ((build_documents miniTable [nameCol]).map tokenize).length = 2 from by decide]
    norm_num
  have hdl : (pipeline_bm25 miniTable [nameCol]).doc_lengths.getD 1 0 = 2 := by
    unfold pipeline_bm25
    rw [fit_doc_lengths _ _ hne]
    decide
  have havg : (pipeline_bm25 miniTable [nameCol]).avgdl
      = ((4 : ℕ) : ℝ) / ((2 : ℕ) : ℝ) := by
    unfold pipeline_bm25
    rw [fit_avgdl _ _ hne]
    rw [show (((build_documents miniTable [nameCol]).map tokenize).map List.length).sum = 4
      from by decide]
    rw [show ((build_documents miniTable [nameCol]).map tokenize).length = 2 from by decide]
  have hk1 : (pipeline_bm25 miniTable [nameCol]).k1 = 1.5 := by
    unfold pipeline_bm25
    rw [(fit_k1_b _ _).1]
    rfl
  have hb : (pipeline_bm25 miniTable [nameCol]).b = 0.75 := by
    unfold pipeline_bm25
    rw [(fit_k1_b _ _).2]
    rfl
  unfold bm25_score_of
  rw [hqt, hdoc1]
  unfold BM25.scoreOne
  simp only [List.map_cons, List.map_nil, List.sum_cons, List.sum_nil, add_zero]
  rw [if_pos (by rw [hdfa]; norm_num), if_pos (by rw [hdfb]; norm_num)]
  rw [hk1, hb, hidfa, hidfb, hdl, havg]
  rw [show ([strL "bbb", strL "aaa"].count (strL "aaa")) = 1 from by decide]
  rw [show ([strL "bbb", strL "aaa"].count (strL "bbb")) = 1 from by decide]
  unfold bm25Term
  push_cast
  norm_num
  ring

/-- The ranking of `miniTable` for the query `"aaa bbb"`: the exact-match row
0 first (score 150), then row 1 with its positive BM25 score below 150. -/
theorem mini_top :
    top_indices miniTable [nameCol] (strL "aaa bbb") 5 = [0, 1] := by
  have hs1 := mini_score1_eval
  have hlog_pos : 0 < Real.log (6 / 5) := Real.log_pos (by norm_num)
  have hlog_le : Real.log (6 / 5) ≤ 6 / 5 - 1 := Real.log_le_sub_one_of_pos (by norm_num)
  have hs1pos : 0 < bm25_score_of miniTable [nameCol] (strL "aaa bbb") 1 := by
    rw [hs1]
    linarith
  have hs1le : bm25_score_of miniTable [nameCol] (strL "aaa bbb") 1 ≤ 100 + 50 := by
    rw [hs1]
    linarith
  unfold bm25_score_of at hs1pos hs1le
  have hraw : (pipeline_bm25 miniTable [nameCol]).rawScores (strL "aaa bbb")
      = [(0, (pipeline_bm25 miniTable [nameCol]).scoreOne (tokenize (strL "aaa bbb")) 0
            ((pipeline_bm25 miniTable [nameCol]).corpus.getD 0 [])),
         (1, (pipeline_bm25 miniTable [nameCol]).scoreOne (tokenize (strL "aaa bbb")) 1
            ((pipeline_bm25 miniTable [nameCol]).corpus.getD 1 []))] := by
    unfold BM25.rawScores
    rw [show (pipeline_bm25 miniTable [nameCol]).corpus.length = 2 from by
      unfold pipeline_bm25
      rw [fit_corpus]
      decide]
    rfl
  have hfil : ((pipeline_bm25 miniTable [nameCol]).rawScores (strL "aaa bbb")).filter
      (fun p => decide (p.1 ∉ ([0] : List ℕ) ∧ 0 < p.2))
      = [(1, (pipeline_bm25 miniTable [nameCol]).scoreOne (tokenize (strL "aaa bbb")) 1
          ((pipeline_bm25 miniTable [nameCol]).corpus.getD 1 []))] := by
    rw [hraw]
    rw [List.filter_cons, List.filter_cons, List.filter_nil]
    rw [if_neg (by
      simp only [decide_eq_true_eq, not_and]
      intro h0
      exact absurd (List.mem_cons_self 0 []) h0)]
    rw [if_pos (by
      simp only [decide_eq_true_eq]
      exact ⟨by simp, hs1pos⟩)]
  have hphase2 : phase2 ((pipeline_bm25 miniTable [nameCol]).score (strL "aaa bbb")) [0]
      = [(1, (pipeline_bm25 miniTable [nameCol]).scoreOne (tokenize (strL "aaa bbb")) 1
          ((pipeline_bm25 miniTable [nameCol]).corpus.getD 1 []))] := by
    rw [phase2_eq_filter _ [0] (score_fst_nodup _ _)]
    apply List.perm_singleton.mp
    have hperm := (score_perm (pipeline_bm25 miniTable [nameCol]) (strL "aaa bbb")).filter
      (fun p => decide (p.1 ∉ ([0] : List ℕ) ∧ 0 < p.2))
    rw [hfil] at hperm
    exact hperm
  have hhits : regex_hits miniTable (strL "aaa bbb") [nameCol] = [0] := by decide
  have hregex : regex_search miniTable (strL "aaa bbb") [nameCol]
      = [(0, (100 : ℝ))] := by
    unfold regex_search
    rw [hhits]
    rfl
  have hph1 : phase1 [(0, (100 : ℝ))] [] = ([(0, (100 : ℝ) + 50)], [0]) := by
    rw [phase1]
    rw [if_neg (List.not_mem_nil 0)]
    rfl
  have hmerge : merge_results (regex_search miniTable (strL "aaa bbb") [nameCol])
      ((pipeline_bm25 miniTable [nameCol]).score (strL "aaa bbb"))
      = [(0, (100 : ℝ) + 50),
         (1, (pipeline_bm25 miniTable [nameCol]).scoreOne (tokenize (strL "aaa bbb")) 1
          ((pipeline_bm25 miniTable [nameCol]).corpus.getD 1 []))] := by
    unfold merge_results
    dsimp only
    rw [hregex, hph1, hphase2]
    rfl
  have hml : merged_list miniTable [nameCol] (strL "aaa bbb")
      = [(0, (100 : ℝ) + 50),
         (1, (pipeline_bm25 miniTable [nameCol]).scoreOne (tokenize (strL "aaa bbb")) 1
          ((pipeline_bm25 miniTable [nameCol]).corpus.getD 1 []))] := by
    unfold merged_list
    rw [hmerge]
    unfold sortDesc
    rw [List.insertionSort, List.insertionSort, List.insertionSort]
    rw [List.orderedInsert_nil, List.orderedInsert]
    rw [if_pos (show scoreGE (0, (100 : ℝ) + 50)
      (1, (pipeline_bm25 miniTable [nameCol]).scoreOne (tokenize (strL "aaa bbb")) 1
        ((pipeline_bm25 miniTable [nameCol]).corpus.getD 1 [])) from hs1le)]
  unfold top_indices
  rw [hml]
  rfl

/-- Witness for C2 amended: in `miniTable` with query `"aaa bbb"`, row 0 is
an exact match, row 1 is not and scores below 150; both appear in the
ranking, and the theorem places row 0's position strictly before row 1's. -/
theorem claim_C2_amended_witness :
    0 ∈ regex_hits miniTable (strL "aaa bbb") [nameCol]
    ∧ 1 ∉ regex_hits miniTable (strL "aaa bbb") [nameCol]
    ∧ top_indices miniTable [nameCol] (strL "aaa bbb") 5 = [0, 1]
    ∧ (0 : ℕ) < 1 := by
  refine ⟨by decide, by decide, mini_top, ?_⟩
  have hbs : bm25_score_of miniTable [nameCol] (strL "aaa bbb") 1 < 100 + 50 := by
    rw [mini_score1_eval]
    have := Real.log_le_sub_one_of_pos (show (0 : ℝ) < 6 / 5 by norm_num)
    linarith
  refine claim_C2_amended miniTable [nameCol] (strL "aaa bbb") 5 0 1
    (by decide) (by decide) hbs 0 1 ?_ ?_ ?_ ?_
  · rw [mini_top]
    norm_num
  · rw [mini_top]
    norm_num
  · simp [mini_top]
  · simp [mini_top]

/-- `getD` on a replicate within bounds. -/
theorem replicate_getD_of_lt {α : Type} (a d : α) (n i : ℕ) (h : i < n) :
    (List.replicate n a).getD i d = a := by
  induction n generalizing i with
  | zero => omega
  | succ m ih =>
    cases i with
    | zero => rfl
    | succ j =>
      rw [List.replicate_succ, List.getD_cons_succ]
      exact ih j (by omega)

/-- Every token of the long query is `aaa` or `bbb`. -/
theorem longQueryToks_cases :
    ∀ t ∈ longQueryToks, t = strL "aaa" ∨ t = strL "bbb" := by decide

/-- The BM25 score of row 1 of `longTable` for the long query: eighty times
one identical per-term summand. -/
theorem long_score1_eval :
    (pipeline_bm25 longTable [nameCol]).scoreOne (tokenize longQuery) 1
        ((pipeline_bm25 longTable [nameCol]).corpus.getD 1 [])
      = 80 * bm25Term 1.5 0.75 (Real.log 14) (((1 : ℕ) : ℝ)) (((2 : ℕ) : ℝ))
          (((114 : ℕ) : ℝ) / ((34 : ℕ) : ℝ)) := by
  have hne : ((build_documents longTable [nameCol]).map tokenize).length ≠ 0 := by decide
  have htoks : tokenize longQuery = longQueryToks := by decide
  have hcorp : (pipeline_bm25 longTable [nameCol]).corpus
      = longQueryToks :: [strL "bbb", strL "aaa"] :: List.replicate 32 [strL "ccc"] := by
    unfold pipeline_bm25
    rw [fit_corpus]
    decide
  have hdoc1 : (pipeline_bm25 longTable [nameCol]).corpus.getD 1 []
      = [strL "bbb", strL "aaa"] := by
    rw [hcorp]
    rfl
  have hdfa : (pipeline_bm25 longTable [nameCol]).docFreqs (strL "aaa") = 2 := by
    unfold pipeline_bm25
    rw [fit_init_docFreqs]
    decide
  have hdfb : (pipeline_bm25 longTable [nameCol]).docFreqs (strL "bbb") = 2 := by
    unfold pipeline_bm25
    rw [fit_init_docFreqs]
    decide
  have hidfa : (pipeline_bm25 longTable [nameCol]).idf (strL "aaa") = Real.log 14 := by
    unfold pipeline_bm25 at hdfa ⊢
    rw [fit_init_idf _ _ (by rw [hdfa]; norm_num), hdfa]
    rw [show ((build_documents longTable [nameCol]).map tokenize).length = 34 from by decide]
    norm_num
  have hidfb : (pipeline_bm25 longTable [nameCol]).idf (strL "bbb") = Real.log 14 := by
    unfold pipeline_bm25 at hdfb ⊢
    rw [fit_init_idf _ _ (by rw [hdfb]; norm_num), hdfb]
    rw [show ((build_documents longTable [nameCol]).map tokenize).length = 34 from by decide]
    norm_num
  have hdl : (pipeline_bm25 longTable [nameCol]).doc_lengths.getD 1 0 = 2 := by
    unfold pipeline_bm25
    rw [fit_doc_lengths _ _ hne]
    decide
  have havg : (pipeline_bm25 longTable [nameCol]).avgdl
      = ((114 : ℕ) : ℝ) / ((34 : ℕ) : ℝ) := by
    unfold pipeline_bm25
    rw [fit_avgdl _ _ hne]
    rw [show (((build_documents longTable [nameCol]).map tokenize).map List.length).sum = 114
      from by decide]
    rw [show ((build_documents longTable [nameCol]).map tokenize).length = 34 from by decide]
  have hk1 : (pipeline_bm25 longTable [nameCol]).k1 = 1.5 := by
    unfold pipeline_bm25
    rw [(fit_k1_b _ _).1]
    rfl
  have hb : (pipeline_bm25 longTable [nameCol]).b = 0.75 := by
    unfold pipeline_bm25
    rw [(fit_k1_b _ _).2]
    rfl
  rw [htoks, hdoc1]
  unfold BM25.scoreOne
  refine Eq.trans (List.sum_eq_card_nsmul _
(bm25Term 1.5 0.75 (Real.log 14) (((1 : ℕ) : ℝ)) (((2 : ℕ) : ℝ))
      (((114 : ℕ) : ℝ) / ((34 : ℕ) : ℝ))) ?_) ?_
  · intro x hx
    rcases List.mem_map.mp hx with ⟨tok, htok, rfl⟩
    rcases longQueryToks_cases tok htok with rfl | rfl
    · rw [if_pos (by rw [hdfa]; norm_num)]
      rw [hk1, hb, hidfa, hdl, havg]
      rw [show ([strL "bbb", strL "aaa"].count (strL "aaa")) = 1 from by decide]
    · rw [if_pos (by rw [hdfb]; norm_num)]
      rw [hk1, hb, hidfb, hdl, havg]
      rw [show ([strL "bbb", strL "aaa"].count (strL "bbb")) = 1 from by decide]
  · rw [List.length_map]
    rw [show longQueryToks.length = 80 from by decide]
    rw [nsmul_eq_mul]
    norm_num

/-- Row 1's BM25 score in `longTable` exceeds the exact-match admission score
150. -/
theorem long_score1_big :
    (100 : ℝ) + 50 < (pipeline_bm25 longTable [nameCol]).scoreOne (tokenize longQuery) 1
        ((pipeline_bm25 longTable [nameCol]).corpus.getD 1 []) := by
  rw [long_score1_eval]
  have he : bm25Term 1.5 0.75 (Real.log 14) (((1 : ℕ) : ℝ)) (((2 : ℕ) : ℝ))
      (((114 : ℕ) : ℝ) / ((34 : ℕ) : ℝ)) = Real.log 14 * (380 / 311) := by
    unfold bm25Term
    push_cast
    rw [mul_div_assoc]
    norm_num
  rw [he]
  have h8 : Real.log 8 < Real.log 14 := Real.log_lt_log (by norm_num) (by norm_num)
  have h8e : Real.log 8 = 3 * Real.log 2 := by
    rw [show (8 : ℝ) = 2 ^ 3 by norm_num, Real.log_pow]
    push_cast
    ring
  have h2 := Real.log_two_gt_d9
  nlinarith

set_option maxRecDepth 100000 in
/-- The ranking of `longTable` for the long query: the BM25-only row 1
(score above 150) comes first, the exact-match row 0 (score 150) second. -/
theorem long_top :
    top_indices longTable [nameCol] longQuery 5 = [1, 0] := by
  have htoks : tokenize longQuery = longQueryToks := by decide
  have hcorp : (pipeline_bm25 longTable [nameCol]).corpus
      = longQueryToks :: [strL "bbb", strL "aaa"] :: List.replicate 32 [strL "ccc"] := by
    unfold pipeline_bm25
    rw [fit_corpus]
    decide
  have hlen : (pipeline_bm25 longTable [nameCol]).corpus.length = 34 := by
    rw [hcorp]
    rfl
  have hs1big := long_score1_big
  have hs1pos : 0 < (pipeline_bm25 longTable [nameCol]).scoreOne (tokenize longQuery) 1
      ((pipeline_bm25 longTable [nameCol]).corpus.getD 1 []) := by linarith
  have hfil : ((pipeline_bm25 longTable [nameCol]).rawScores longQuery).filter
      (fun p => decide (p.1 ∉ ([0] : List ℕ) ∧ 0 < p.2))
      = [(1, (pipeline_bm25 longTable [nameCol]).scoreOne (tokenize longQuery) 1
          ((pipeline_bm25 longTable [nameCol]).corpus.getD 1 []))] := by
    unfold BM25.rawScores
    rw [hlen]
    rw [show List.range 34 = 0 :: 1 :: List.range' 2 32 from by decide]
    rw [List.map_cons, List.map_cons]
    rw [List.filter_cons, List.filter_cons]
    rw [if_neg (by
      simp only [decide_eq_true_eq, not_and]
      intro h0
      exact absurd (List.mem_cons_self 0 []) h0)]
    rw [if_pos (by
      simp only [decide_eq_true_eq]
      exact ⟨by simp, hs1pos⟩)]
    rw [show ((List.range' 2 32).map (fun idx =>
        (idx, (pipeline_bm25 longTable [nameCol]).scoreOne (tokenize longQuery) idx
          ((pipeline_bm25 longTable [nameCol]).corpus.getD idx [])))).filter
        (fun p => decide (p.1 ∉ ([0] : List ℕ) ∧ 0 < p.2)) = [] from ?_]
    · apply List.filter_eq_nil_iff.mpr
      intro p hp
      rcases List.mem_map.mp hp with ⟨i, hi, rfl⟩
      have hrange : 2 ≤ i ∧ i < 2 + 32 := List.mem_range'_1.mp hi
      have hgd : (pipeline_bm25 longTable [nameCol]).corpus.getD i [] = [strL "ccc"] := by
        rw [hcorp]
        obtain ⟨j, rfl⟩ : ∃ j, i = j + 2 := ⟨i - 2, by omega⟩
        rw [show j + 2 = (j + 1) + 1 from rfl, List.getD_cons_succ, List.getD_cons_succ]
        exact replicate_getD_of_lt _ _ _ _ (by omega)
      have hscore : (pipeline_bm25 longTable [nameCol]).scoreOne (tokenize longQuery) i
          ((pipeline_bm25 longTable [nameCol]).corpus.getD i []) = 0 := by
        rw [hgd]
        apply scoreOne_zero
        rw [htoks]
        decide
      simp only [decide_eq_true_eq, not_and]
      intro _
      rw [hscore]
      exact lt_irrefl 0
  have hphase2 : phase2 ((pipeline_bm25 longTable [nameCol]).score longQuery) [0]
      = [(1, (pipeline_bm25 longTable [nameCol]).scoreOne (tokenize longQuery) 1
          ((pipeline_bm25 longTable [nameCol]).corpus.getD 1 []))] := by
    rw [phase2_eq_filter _ [0] (score_fst_nodup _ _)]
    apply List.perm_singleton.mp
    have hperm := (score_perm (pipeline_bm25 longTable [nameCol]) longQuery).filter
      (fun p => decide (p.1 ∉ ([0] : List ℕ) ∧ 0 < p.2))
    rw [hfil] at hperm
    exact hperm
  have hhits : regex_hits longTable longQuery [nameCol] = [0] := by decide
  have hregex : regex_search longTable longQuery [nameCol] = [(0, (100 : ℝ))] := by
    unfold regex_search
    rw [hhits]
    rfl
  have hph1 : phase1 [(0, (100 : ℝ))] [] = ([(0, (100 : ℝ) + 50)], [0]) := by
    rw [phase1]
    rw [if_neg (List.not_mem_nil 0)]
    rfl
  have hmerge : merge_results (regex_search longTable longQuery [nameCol])
      ((pipeline_bm25 longTable [nameCol]).score longQuery)
      = [(0, (100 : ℝ) + 50),
         (1, (pipeline_bm25 longTable [nameCol]).scoreOne (tokenize longQuery) 1
          ((pipeline_bm25 longTable [nameCol]).corpus.getD 1 []))] := by
    unfold merge_results
    dsimp only
    rw [hregex, hph1, hphase2]
    rfl
  have hml : merged_list longTable [nameCol] longQuery
      = [(1, (pipeline_bm25 longTable [nameCol]).scoreOne (tokenize longQuery) 1
          ((pipeline_bm25 longTable [nameCol]).corpus.getD 1 [])),
         (0, (100 : ℝ) + 50)] := by
    unfold merged_list
    rw [hmerge]
    unfold sortDesc
    rw [List.insertionSort, List.insertionSort, List.insertionSort]
    rw [List.orderedInsert_nil, List.orderedInsert]
    rw [if_neg (show ¬ scoreGE (0, (100 : ℝ) + 50)
      (1, (pipeline_bm25 longTable [nameCol]).scoreOne (tokenize longQuery) 1
        ((pipeline_bm25 longTable [nameCol]).corpus.getD 1 []))
      from not_le.mpr hs1big)]
    rw [List.orderedInsert_nil]
  unfold top_indices
  rw [hml]
  rfl

set_option maxRecDepth 100000 in
/-- C2 counterexample: in `longTable` with the long query, row 0 contains the
query verbatim in its search field (an exact match admitted with score 150)
and row 1 does not, yet both rows appear in the merged result and row 1 is
ranked above row 0 — its BM25 score (eighty repeated query-term summands)
exceeds the fixed exact-match score 150, so exact matches do not always
outrank BM25-only rows. -/
theorem claim_C2_counterexample :
    0 ∈ regex_hits longTable longQuery [nameCol]
    ∧ 1 ∉ regex_hits longTable longQuery [nameCol]
    ∧ top_indices longTable [nameCol] longQuery 5 = [1, 0] :=
  ⟨by decide, by decide, long_top⟩
